import Mathlib

/-!
Verification of the Tegra USB PHY / EHCI link state machine of the
I9103 (Samsung N1) kernel tree, a shallow embedding of
`arch/arm/mach-tegra/usb_phy.c` and `drivers/usb/host/ehci-tegra.c`.

The tree is built with `CONFIG_MACH_N1`, so every `#ifdef CONFIG_MACH_N1`
branch is the live one; the constants below (50000 poll iterations,
20 presence polls, 5 HSIC power-on retries) are the N1 values.

Register reads performed by polling loops are modelled as a sequence
`reads : Nat -> Nat` giving the value returned by the k-th `readl` of the
polled register; external collaborators of the subsystem (clock framework,
regulators, GPIO, IRQ registration, `kmalloc`) are modelled as succeeding,
as the specification treats them as external collaborators.
-/

set_option autoImplicit false

namespace TegraUsb

/-! ## Polled register waits (`utmi_wait_register`) -/

/-- Recursion core of `utmi_wait_register`: `fuel` is the remaining value of
the C `timeout` counter, `k` the index of the next `readl`.  The C loop is a
do-while: it reads, compares `(readl(reg) & mask) == result`, returns `0` on
a match, and otherwise delays 1 microsecond and decrements `timeout` until it
hits zero, at which point the function returns `-1`. -/
def utmiWaitGo (reads : Nat → Nat) (mask result : Nat) : Nat → Nat → Int × Nat
  | 0, k => (-1, k)
  | fuel + 1, k =>
    if reads k &&& mask = result then (0, k + 1)
    else utmiWaitGo reads mask result fuel (k + 1)

/-- Model of `utmi_wait_register` from `usb_phy.c`.  With `CONFIG_MACH_N1`
the iteration budget is `50000`.  The result is the C return value together
with the number of reads that were performed. -/
def utmi_wait_register (reads : Nat → Nat) (mask result : Nat) : Int × Nat :=
  utmiWaitGo reads mask result 50000 0

/-! ## Shared UTMI pad reference count (`utmip_pad_power_on` / `_off`) -/

/-- The two analog-bias power-down bits of the shared `UTMIP_BIAS_CFG0`
register: `UTMIP_OTGPD` (bit 11) and `UTMIP_BIASPD` (bit 10).  The bias
block is powered when both bits are clear. -/
structure BiasCfg0 where
  otgpd : Bool
  biaspd : Bool
deriving DecidableEq

/-- Process-wide shared UTMI pad state: the `utmip_pad_count` counter (a C
`int`, hence modelled as `Int`) and the shared `UTMIP_BIAS_CFG0` bits,
together with counters of how many power-up writes (both bits cleared) and
power-down writes (both bits set) have been issued to the register. -/
structure PadState where
  count : Int
  bias : BiasCfg0
  upWrites : Nat
  downWrites : Nat
deriving DecidableEq

/-- Initial pad state: counter zero (C static initialization), bias block
powered down (both power-down bits set), no writes recorded. -/
def padInit : PadState :=
  { count := 0, bias := ⟨true, true⟩, upWrites := 0, downWrites := 0 }

/-- Model of `utmip_pad_power_on`: `if (utmip_pad_count++ == 0)` clear
`UTMIP_OTGPD | UTMIP_BIASPD` in `UTMIP_BIAS_CFG0`. -/
def utmip_pad_power_on (s : PadState) : PadState :=
  if s.count = 0 then
    { s with count := s.count + 1, bias := ⟨false, false⟩,
             upWrites := s.upWrites + 1 }
  else
    { s with count := s.count + 1 }

/-- Model of `utmip_pad_power_off`: `if (!utmip_pad_count)` return `-EINVAL`
(= `-22`) without touching anything; otherwise `if (--utmip_pad_count == 0)`
set `UTMIP_OTGPD | UTMIP_BIASPD`.  Returns the new state and the C return
value. -/
def utmip_pad_power_off (s : PadState) : PadState × Int :=
  if s.count = 0 then (s, -22)
  else if s.count - 1 = 0 then
    ({ s with count := s.count - 1, bias := ⟨true, true⟩,
              downWrites := s.downWrites + 1 }, 0)
  else
    ({ s with count := s.count - 1 }, 0)

/-- One pad operation issued by some UTMI phy instance.  The counter and the
bias register are shared across instances, so the instance index plays no
role in the shared-state transition. -/
inductive PadOp
  | powerOn
  | powerOff
deriving DecidableEq

def padStep (s : PadState) : PadOp → PadState
  | .powerOn => utmip_pad_power_on s
  | .powerOff => (utmip_pad_power_off s).1

def padRun (ops : List PadOp) (s : PadState) : PadState :=
  ops.foldl padStep s

/-- The C1 scenario: `n` power-on calls followed by `n` power-off calls
(the power-off calls are identical shared-state transitions, so every
order of the `n` power-offs is this same sequence). -/
def padScenario (n : Nat) : List PadOp :=
  List.replicate n PadOp.powerOn ++ List.replicate n PadOp.powerOff

/-! ## HSIC port-reset path of `tegra_ehci_hub_control` (FEAT_RESET, N1) -/

/-- Recursion core of the presence-poll loop in the `USB_PORT_FEAT_RESET`
branch of `tegra_ehci_hub_control`: `while (retry_connect)` poll
`tegra_usb_phy_is_device_connected`, breaking on the first `true`; `conn k`
is the result of the k-th poll.  Returns the index of the first successful
poll, or `none` when the budget is exhausted. -/
def pollConnected (conn : Nat → Bool) : Nat → Nat → Option Nat
  | 0, _ => none
  | fuel + 1, k => if conn k then some k else pollConnected conn fuel (k + 1)

/-- Outcome of the HSIC port-reset path. -/
structure ResetPathResult where
  busResetInvoked : Bool
  readyAfter : Bool
  pollsMade : Nat
  busIdleCalled : Bool
deriving DecidableEq

/-- Model of the `hsic && wIndex == 0` part of the `USB_PORT_FEAT_RESET`
branch of `tegra_ehci_hub_control` (N1 build): when `device_ready_for_reset`
is not set, call `tegra_usb_phy_bus_idle` and poll device presence up to
`retry_connect = 20` times (sleeping 50 ms between polls); if the flag is
set (either on entry or by a successful poll), call
`tegra_usb_phy_bus_reset` and clear the flag. -/
def hsicPortResetPath (ready : Bool) (conn : Nat → Bool) : ResetPathResult :=
  if ready then
    { busResetInvoked := true, readyAfter := false, pollsMade := 0,
      busIdleCalled := false }
  else
    match pollConnected conn 20 0 with
    | some k =>
      { busResetInvoked := true, readyAfter := false, pollsMade := k + 1,
        busIdleCalled := true }
    | none =>
      { busResetInvoked := false, readyAfter := false, pollsMade := 20,
        busIdleCalled := true }

/-! ## Events that touch `device_ready_for_reset` (ehci-tegra.c, N1) -/

/-- The events of `ehci-tegra.c` that read or write the
`device_ready_for_reset` flag:
* `portPowerConnect sd`: `SetPortFeature USB_PORT_FEAT_POWER` on the HSIC
  port; unless `shutdown == 1` it calls `tegra_usb_phy_bus_connect` and sets
  the flag;
* `portReset conn`: `SetPortFeature USB_PORT_FEAT_RESET` (the
  `hsicPortResetPath` above), with `conn` the presence-poll results;
* `resumeCheck c`: the HSIC tail of `tegra_usb_resume`, which sets the flag
  when `tegra_usb_phy_is_device_connected` returned `c = true` and schedules
  the reconnection worker otherwise;
* `workerPoll c`: one run of `tegra_hsic_connection_work`, which sets the
  flag when its presence check returned `c = true`;
* `busSuspend`: `tegra_usb_suspend`, which clears the flag for HSIC. -/
inductive HsicEvent
  | portPowerConnect (sd : Bool)
  | portReset (conn : Nat → Bool)
  | resumeCheck (c : Bool)
  | workerPoll (c : Bool)
  | busSuspend

/-- Effect of one event on the `device_ready_for_reset` flag, together with
whether the event invoked `tegra_usb_phy_bus_reset`. -/
def hsicStep (ready : Bool) : HsicEvent → Bool × Bool
  | .portPowerConnect sd => if sd then (ready, false) else (true, false)
  | .portReset conn =>
    let r := hsicPortResetPath ready conn
    (r.readyAfter, r.busResetInvoked)
  | .resumeCheck c => (if c then true else ready, false)
  | .workerPoll c => (if c then true else ready, false)
  | .busSuspend => (false, false)

/-- Run a trace of events: final flag value and number of
`tegra_usb_phy_bus_reset` invocations. -/
def hsicRun (ready : Bool) : List HsicEvent → Bool × Nat
  | [] => (ready, 0)
  | e :: es =>
    let s := hsicStep ready e
    let rest := hsicRun s.1 es
    (rest.1, (if s.2 then 1 else 0) + rest.2)

/-- Whether an event re-confirms device presence: a (non-shutdown)
port-power / bus-connect, a successful presence poll inside the reset path,
a resume that found the device connected, or a successful reconnection
worker poll. -/
def HsicEvent.confirmsPresence : HsicEvent → Bool
  | .portPowerConnect sd => !sd
  | .portReset conn => (pollConnected conn 20 0).isSome
  | .resumeCheck c => c
  | .workerPoll c => c
  | .busSuspend => false

/-- Number of presence-confirming events in a trace. -/
def confirmCount (es : List HsicEvent) : Nat :=
  (es.filter HsicEvent.confirmsPresence).length

/-! ## `tegra_usb_phy_open` and the crystal-frequency calibration tables -/

/-- One row of a crystal-frequency calibration table
(`struct tegra_xtal_freq`). -/
structure TegraXtalFreq where
  freq : Nat
  enable_delay : Nat
  stable_count : Nat
  active_delay : Nat
  xtal_freq_count : Nat
  debounce : Nat
deriving DecidableEq

/-- `tegra_freq_table` from `usb_phy.c` (UTMI / ULPI families). -/
def tegra_freq_table : List TegraXtalFreq :=
  [ ⟨12000000, 0x02, 0x2F, 0x04, 0x76, 0x7530⟩,
    ⟨13000000, 0x02, 0x33, 0x05, 0x7F, 0x7EF4⟩,
    ⟨19200000, 0x03, 0x4B, 0x06, 0xBB, 0xBB80⟩,
    ⟨26000000, 0x04, 0x66, 0x09, 0xFE, 0xFDE8⟩ ]

/-- `tegra_uhsic_freq_table` from `usb_phy.c` (HSIC family; the `debounce`
field is not initialised in C, hence zero). -/
def tegra_uhsic_freq_table : List TegraXtalFreq :=
  [ ⟨12000000, 0x02, 0x2F, 0x0, 0x1CA, 0⟩,
    ⟨13000000, 0x02, 0x33, 0x0, 0x1F0, 0⟩,
    ⟨19200000, 0x03, 0x4B, 0x0, 0x2DD, 0⟩,
    ⟨26000000, 0x04, 0x66, 0x0, 0x3E0, 0⟩ ]

/-- `enum tegra_usb_phy_mode`. -/
inductive TegraUsbPhyMode
  | host
  | device
deriving DecidableEq

/-- `enum tegra_ulpi_inf_type`: `TEGRA_USB_LINK_ULPI`, `TEGRA_USB_NULL_ULPI`
and `TEGRA_USB_UHSIC`. -/
inductive TegraUlpiInfType
  | linkUlpi
  | nullUlpi
  | uhsic
deriving DecidableEq

/-- `struct tegra_utmip_config` (the fields used by the UTMI power
sequencing). -/
structure TegraUtmipConfig where
  hssync_start_delay : Nat
  idle_wait_delay : Nat
  elastic_limit : Nat
  term_range_adj : Nat
  xcvr_setup : Nat
  xcvr_lsfslew : Nat
  xcvr_lsrslew : Nat
deriving DecidableEq

/-- `struct tegra_ulpi_config` (the field that drives the transceiver
dispatch). -/
structure TegraUlpiConfig where
  inf_type : TegraUlpiInfType
deriving DecidableEq

/-- The `void *config` argument of `tegra_usb_phy_open`, typed: a UTMI
configuration for instances 0/2, a ULPI configuration for instance 1. -/
inductive UsbPhyConfig
  | utmip (c : TegraUtmipConfig)
  | ulpi (c : TegraUlpiConfig)
deriving DecidableEq

/-- The compiled-in `utmip_default[]` array: designated initialisers for
indices 0 and 2; index 1 is zero-initialised (C static storage). -/
def utmip_default : Nat → TegraUtmipConfig
  | 0 => ⟨9, 17, 16, 6, 11, 1, 1⟩
  | 2 => ⟨9, 17, 16, 6, 9, 2, 2⟩
  | _ => ⟨0, 0, 0, 0, 0, 0, 0⟩

/-- `struct tegra_usb_phy` (the fields that the claims depend on:
`instance`, `config`, `mode`, `freq`).  The field `inst` stands for the C
member `instance` (a Lean keyword). -/
structure UsbPhy where
  inst : Nat
  config : UsbPhyConfig
  mode : TegraUsbPhyMode
  freq : TegraXtalFreq
deriving DecidableEq

/-- `phy_is_ulpi(phy) && ulpi_config->inf_type == TEGRA_USB_UHSIC`: the
handle is an HSIC handle.  `phy_is_ulpi` is `instance == 1`. -/
def phyConfigIsHsic (inst : Nat) (cfg : UsbPhyConfig) : Bool :=
  inst == 1 &&
    (match cfg with
     | .ulpi u => u.inf_type == .uhsic
     | .utmip _ => false)

/-- The calibration table used by `tegra_usb_phy_open` for a handle:
`tegra_uhsic_freq_table` for HSIC, `tegra_freq_table` otherwise. -/
def freqTableFor (hsic : Bool) : List TegraXtalFreq :=
  if hsic then tegra_uhsic_freq_table else tegra_freq_table

/-- The body of `tegra_usb_phy_open` after the configuration check: compute
the `hsic` flag, look up `parent_rate` in the family's calibration table by
exact frequency match, and fail with `-EINVAL` (`-22`) when no row matches.
External acquisitions (`pll_u`, the ULPI clock, the pad mapping, the VBUS
IRQ) are collaborators modelled as succeeding. -/
def openWithConfig (inst : Nat) (cfg : UsbPhyConfig) (phy_mode : TegraUsbPhyMode)
    (parent_rate : Nat) : Except Int UsbPhy :=
  match (freqTableFor (phyConfigIsHsic inst cfg)).find? (fun r => r.freq == parent_rate) with
  | none => .error (-22)
  | some row => .ok { inst := inst, config := cfg, mode := phy_mode, freq := row }

/-- Model of `tegra_usb_phy_open`: when no configuration record is supplied
(`!phy->config`), a discrete-ULPI/HSIC instance (`phy_is_ulpi`, i.e.
`instance == 1`) fails with `-EINVAL`, and a UTMI instance falls back to
`utmip_default[instance]`; then the calibration-table lookup of
`openWithConfig` runs.  An `.error` result returns no handle. -/
def tegra_usb_phy_open (inst : Nat) (config : Option UsbPhyConfig)
    (phy_mode : TegraUsbPhyMode) (parent_rate : Nat) : Except Int UsbPhy :=
  match config with
  | none =>
    if inst == 1 then .error (-22)
    else openWithConfig inst (.utmip (utmip_default inst)) phy_mode parent_rate
  | some cfg => openWithConfig inst cfg phy_mode parent_rate

/-! ## HSIC power-on retry loop (`uhsic_phy_power_on`, N1) -/

/-- Result record of `uhsic_phy_power_on`: C return value, number of
executions of the power-on register sequence, and number of
`uhsic_phy_power_off` calls made between attempts. -/
structure HsicPowerOnResult where
  ret : Int
  attempts : Nat
  powerOffs : Nat
deriving DecidableEq

/-- Recursion core of the N1 retry loop of `uhsic_phy_power_on`: `spin` is
the remaining value of the C `spin` counter (initially 5) and `k` the index
of the attempt just performed.  After each run of the power-on register
sequence, `if (gpio_get_value(GPIO_PHONE_ACTIVE) && spin-- > 0)` and the
`USB_PORTSC1` port-speed field differs from the expected value, the code
powers the phy off, pulses `GPIO_IPC_SLAVE_WAKEUP` (the modem wake
sequence), and jumps back to `retry`; otherwise the function returns `0`.
`speedOk k` tells whether attempt `k` observed the expected port-speed
status, `phoneActive` is `gpio_get_value(GPIO_PHONE_ACTIVE)`. -/
def uhsicPowerOnGo (phoneActive : Bool) (speedOk : Nat → Bool) :
    Nat → Nat → HsicPowerOnResult
  | 0, k => ⟨0, k + 1, k⟩
  | spin + 1, k =>
    if phoneActive && !speedOk k then
      uhsicPowerOnGo phoneActive speedOk spin (k + 1)
    else ⟨0, k + 1, k⟩

/-- Model of `uhsic_phy_power_on` (N1): run the power-on sequence with a
retry budget `spin = 5`. -/
def uhsic_phy_power_on (phoneActive : Bool) (speedOk : Nat → Bool) :
    HsicPowerOnResult :=
  uhsicPowerOnGo phoneActive speedOk 5 0

/-! ## `tegra_usb_phy_is_device_connected` -/

/-- `UHSIC_CONNECT_DETECT` (bit 0 of `UHSIC_STAT_CFG0`). -/
def UHSIC_CONNECT_DETECT : Nat := 1 <<< 0

/-- `USB_PORTSC1_LS(x)`: the line-state field of `USB_PORTSC1`
(`((x) & 0x3) << 10`). -/
def USB_PORTSC1_LS (x : Nat) : Nat := (x &&& 3) <<< 10

/-- Whether a handle is an HSIC handle, as tested by
`tegra_usb_phy_is_device_connected`:
`phy_is_ulpi(phy) && config->inf_type == TEGRA_USB_UHSIC`. -/
def phyIsHsicHandle (p : UsbPhy) : Bool := phyConfigIsHsic p.inst p.config

/-- Model of `tegra_usb_phy_is_device_connected` (N1): for an HSIC handle,
poll `UHSIC_STAT_CFG0` for `UHSIC_CONNECT_DETECT` and then `USB_PORTSC1`
for line state `USB_PORTSC1_LS(2)` (each with `utmi_wait_register`),
returning false on either timeout; for every other handle, return true
without reading any register.  `statReads` / `portscReads` are the read
sequences of the two polled registers. -/
def tegra_usb_phy_is_device_connected (p : UsbPhy)
    (statReads portscReads : Nat → Nat) : Bool :=
  if phyIsHsicHandle p then
    if (utmi_wait_register statReads UHSIC_CONNECT_DETECT UHSIC_CONNECT_DETECT).1 < 0 then
      false
    else if (utmi_wait_register portscReads (USB_PORTSC1_LS 2) (USB_PORTSC1_LS 2)).1 < 0 then
      false
    else
      true
  else
    true

/-! ## `tegra_usb_resume` branch structure (ehci-tegra.c, N1) -/

/-- `TEGRA_USB_PHY_PORT_SPEED_HIGH` of `enum tegra_usb_phy_port_speed`
(full = 0, low = 1, high = 2).  The enum lives in the out-of-tree header
`mach/usb_phy.h`; the value 2 for high speed is corroborated in-tree by
`tegra_usb_phy_bus_reset` waiting on `USB_PORTSC1_PSPD(2)` for "hsic high
speed configuration" and by `tegra_usb_suspend` reading the two-bit PSPD
field `(readl(&hw->port_status[0]) >> 26) & 0x3` into `port_speed`. -/
def TEGRA_USB_PHY_PORT_SPEED_HIGH : Nat := 2

/-- The phy/controller operations that `tegra_usb_resume` may invoke, in
trace order. -/
inductive ResumeCall
  | powerUp
  | phyRestoreStart
  | tdiReset
  | phyRestoreEnd
  | ehciRestart
  | busIdle
  | scheduleWork
deriving DecidableEq

/-- Hardware/handshake outcomes observed by `tegra_usb_resume`:
`asyncNextZero` = the `ASYNC_NEXT` register read zero (LP0 path),
`connectHandshakeOk`/`peHandshakeOk`/`suspendHandshakeOk` = the three
`handshake(...)` polls succeeded, `portPowerAndPe` = the
`(val & PORT_POWER) && (val & PORT_PE)` read before writing SUSPEND,
`regsValid` = `ehci && ehci->regs && ehci->async` in the restart tail,
`restartPowerPe` = the same POWER/PE read inside the restart tail,
`deviceConnected` = result of `tegra_usb_phy_is_device_connected` there. -/
structure ResumeEnv where
  asyncNextZero : Bool
  connectHandshakeOk : Bool
  peHandshakeOk : Bool
  portPowerAndPe : Bool
  suspendHandshakeOk : Bool
  regsValid : Bool
  restartPowerPe : Bool
  deviceConnected : Bool
deriving DecidableEq

/-- The `restart:` tail of `tegra_usb_resume` (N1): call
`tegra_ehci_phy_restore_end` when `!hsic || port_speed <= HIGH`; for HSIC,
bail out on invalid controller state, restart the controller when the port
lost POWER/PE, park the bus (`tegra_usb_phy_bus_idle`), and either schedule
the reconnection worker or mark the device ready; for non-HSIC, restart. -/
def resumeRestartTail (hsic : Bool) (port_speed : Nat) (env : ResumeEnv) :
    List ResumeCall :=
  (if hsic = false ∨ port_speed ≤ TEGRA_USB_PHY_PORT_SPEED_HIGH then
    [ResumeCall.phyRestoreEnd] else []) ++
  (if hsic then
    if env.regsValid = false then []
    else
      (if env.restartPowerPe = false then [ResumeCall.ehciRestart] else []) ++
      [ResumeCall.busIdle] ++
      (if env.deviceConnected then [] else [ResumeCall.scheduleWork])
   else [ResumeCall.ehciRestart])

/-- Model of `tegra_usb_resume` (N1) as the trace of operations invoked:
power up; for HSIC go straight to the restart tail; for `port_speed >
TEGRA_USB_PHY_PORT_SPEED_HIGH` sleep and go to the restart tail; otherwise
force the data lines into suspend (`tegra_ehci_phy_restore_start`), reset
into host mode (`tdi_reset`), run the port-power / connect / enable /
suspend handshakes (each timeout falls through to the restart tail), and
finish with `tegra_ehci_phy_restore_end`. -/
def tegra_usb_resume (hsic : Bool) (port_speed : Nat) (env : ResumeEnv) :
    List ResumeCall :=
  ResumeCall.powerUp ::
  (if hsic then resumeRestartTail hsic port_speed env
   else if TEGRA_USB_PHY_PORT_SPEED_HIGH < port_speed then
     resumeRestartTail hsic port_speed env
   else
     ResumeCall.phyRestoreStart :: ResumeCall.tdiReset ::
     (if env.connectHandshakeOk = false then resumeRestartTail hsic port_speed env
      else if env.peHandshakeOk = false then resumeRestartTail hsic port_speed env
      else if env.portPowerAndPe = true ∧ env.suspendHandshakeOk = false then
        resumeRestartTail hsic port_speed env
      else [ResumeCall.phyRestoreEnd]))

/-- A fully cooperative environment: all handshakes succeed, the controller
state is valid, the device is connected. -/
def resumeEnvAllOk : ResumeEnv :=
  { asyncNextZero := false, connectHandshakeOk := true, peHandshakeOk := true,
    portPowerAndPe := true, suspendHandshakeOk := true, regsValid := true,
    restartPowerPe := true, deviceConnected := true }

/-! ## Port resume (`ClearPortFeature`/`USB_PORT_FEAT_SUSPEND` path) -/

/-- EHCI `PORTSC` bits relevant to the port resume path, as named Booleans:
`connect` = PORT_CONNECT (bit 0), `pe` = PORT_PE (bit 2), `suspended` =
PORT_SUSPEND (bit 7), `resume` = PORT_RESUME (bit 6), `reset` = PORT_RESET
(bit 8), `power` = PORT_POWER (bit 12) and `wkconn`/`wkdisc`/`wkoc` the
three wake-enable bits (bits 20-22).  The write-one-to-clear status bits
(`PORT_RWC_BITS`) carry no control state and are not modelled. -/
structure PortStatus where
  connect : Bool
  pe : Bool
  suspended : Bool
  resume : Bool
  reset : Bool
  power : Bool
  wkconn : Bool
  wkdisc : Bool
  wkoc : Bool
deriving DecidableEq

/-- Controller behaviour during the two `handshake` polls of the resume
path: whether the hardware autonomously clears `PORT_RESUME` (the Tegra
controller times the resume duration itself) and `PORT_SUSPEND` within the
poll budget.  A `false` field is the timeout case, which the C code only
logs (`pr_err`) and then continues. -/
structure ResumeHw where
  clearsResume : Bool
  clearsSuspend : Bool
deriving DecidableEq

/-- Outcome of one `ClearPortFeature USB_PORT_FEAT_SUSPEND` request:
C return value, final `PORTSC` state, the `tegra->port_resuming` flag, and
whether resume signalling was (re)started (the `PORT_RESUME` write). -/
structure PortResumeOutcome where
  retval : Int
  portsc : PortStatus
  port_resuming : Bool
  startedSignal : Bool
deriving DecidableEq

/-- Model of the `ClearPortFeature`/`USB_PORT_FEAT_SUSPEND` branch of
`tegra_ehci_hub_control`: fail with `-EPIPE` (`-32`) if the port is in
reset or not enabled; return immediately if `PORT_SUSPEND` is clear (the
only guard against re-entering — the `port_resuming` flag is not
consulted); otherwise disable disconnect detection (`preresume`), run the
`STS_SRI` set/clear/set dance, write back `PORTSC` with the wake and RWC
bits cleared and `PORT_RESUME` set (starting resume signalling), poll for
the controller to clear `PORT_RESUME` and `PORT_SUSPEND` (timeouts logged
only), and set `port_resuming = 1`. -/
def tegra_ehci_port_resume (hw : ResumeHw) (s : PortStatus) (resuming : Bool) :
    PortResumeOutcome :=
  if s.reset || !s.pe then
    ⟨-32, s, resuming, false⟩
  else if !s.suspended then
    ⟨0, s, resuming, false⟩
  else
    let t : PortStatus :=
      { s with wkconn := false, wkdisc := false, wkoc := false, resume := true }
    let t1 := if hw.clearsResume then { t with resume := false } else t
    let t2 := if hw.clearsSuspend then { t1 with suspended := false } else t1
    ⟨0, t2, true, true⟩

/-- A suspended, enabled, powered port exactly as the
`SetPortFeature USB_PORT_FEAT_SUSPEND` path leaves it (`PORT_WKCONN_E`
cleared, `PORT_WKDISC_E | PORT_WKOC_E` set, `PORT_SUSPEND` set). -/
def suspendedPort : PortStatus :=
  { connect := true, pe := true, suspended := true, resume := false,
    reset := false, power := true, wkconn := false, wkdisc := true,
    wkoc := true }

/-- A controller that never clears `PORT_RESUME`/`PORT_SUSPEND` within the
poll budget — the timeout case the code tolerates with a log message. -/
def unresponsiveHw : ResumeHw := ⟨false, false⟩

/-- A controller that completes the resume handshake. -/
def responsiveHw : ResumeHw := ⟨true, true⟩

/-! ## Theorems -/

theorem utmiWaitGo_snd_le (reads : Nat → Nat) (mask result : Nat) :
    ∀ fuel k, (utmiWaitGo reads mask result fuel k).2 ≤ k + fuel := by
  intro fuel
  induction fuel with
  | zero => intro k; simp [utmiWaitGo]
  | succ n ih =>
    intro k
    rw [utmiWaitGo]
    split
    · simp
    · exact le_trans (ih (k + 1)) (by omega)

theorem utmiWaitGo_first_match (reads : Nat → Nat) (mask result : Nat) :
    ∀ fuel k₀ k, k₀ ≤ k → k < k₀ + fuel →
      reads k &&& mask = result →
      (∀ j, k₀ ≤ j → j < k → reads j &&& mask ≠ result) →
      utmiWaitGo reads mask result fuel k₀ = (0, k + 1) := by
  intro fuel
  induction fuel with
  | zero => intro k₀ k h1 h2; omega
  | succ n ih =>
    intro k₀ k h1 h2 hmatch hbefore
    rw [utmiWaitGo]
    by_cases h0 : reads k₀ &&& mask = result
    · rw [if_pos h0]
      rcases Nat.eq_or_lt_of_le h1 with rfl | hlt
      · rfl
      · exact absurd h0 (hbefore k₀ le_rfl hlt)
    · rw [if_neg h0]
      have hne : k₀ ≠ k := fun h => h0 (h ▸ hmatch)
      exact ih (k₀ + 1) k (by omega) (by omega) hmatch
        (fun j hj1 hj2 => hbefore j (by omega) hj2)

theorem utmiWaitGo_no_match (reads : Nat → Nat) (mask result : Nat) :
    ∀ fuel k₀, (∀ k, k₀ ≤ k → k < k₀ + fuel → reads k &&& mask ≠ result) →
      utmiWaitGo reads mask result fuel k₀ = (-1, k₀ + fuel) := by
  intro fuel
  induction fuel with
  | zero => intro k₀ _; simp [utmiWaitGo]
  | succ n ih =>
    intro k₀ hall
    rw [utmiWaitGo, if_neg (hall k₀ le_rfl (by omega))]
    have := ih (k₀ + 1) (fun k hk1 hk2 => hall k (by omega) (by omega))
    rw [this]
    congr 1
    omega

theorem padRun_append (l₁ l₂ : List PadOp) (s : PadState) :
    padRun (l₁ ++ l₂) s = padRun l₂ (padRun l₁ s) := by
  simp [padRun, List.foldl_append]

theorem padRun_on_pos (n : Nat) :
    ∀ s : PadState, 0 < s.count →
      padRun (List.replicate n PadOp.powerOn) s = { s with count := s.count + n } := by
  induction n with
  | zero => intro s _; simp [padRun]
  | succ m ih =>
    intro s hs
    rw [List.replicate_succ]
    have hne : ¬ s.count = 0 := by omega
    have hstep : padStep s PadOp.powerOn = { s with count := s.count + 1 } := by
      simp [padStep, utmip_pad_power_on, hne]
    simp only [padRun, List.foldl_cons]
    rw [hstep]
    have := ih { s with count := s.count + 1 } (by simp; omega)
    simp only [padRun] at this
    rw [this]
    simp only [PadState.mk.injEq, and_self, and_true, true_and]
    push_cast
    omega

theorem padRun_on_init (n : Nat) :
    padRun (List.replicate (n + 1) PadOp.powerOn) padInit =
      { count := (n : Int) + 1, bias := ⟨false, false⟩, upWrites := 1, downWrites := 0 } := by
  rw [List.replicate_succ]
  simp only [padRun, List.foldl_cons]
  have hstep : padStep padInit PadOp.powerOn =
      { count := 1, bias := ⟨false, false⟩, upWrites := 1, downWrites := 0 } := by
    simp [padStep, utmip_pad_power_on, padInit]
  rw [hstep]
  have := padRun_on_pos n
    { count := 1, bias := ⟨false, false⟩, upWrites := 1, downWrites := 0 } (by simp)
  simp only [padRun] at this ⊢
  rw [this]
  simp
  omega

theorem padRun_off_chain (k : Nat) :
    ∀ s : PadState, (k : Int) < s.count →
      padRun (List.replicate k PadOp.powerOff) s = { s with count := s.count - k } := by
  induction k with
  | zero => intro s _; simp [padRun]
  | succ m ih =>
    intro s hs
    rw [List.replicate_succ]
    simp only [padRun, List.foldl_cons]
    have h1 : ¬ s.count = 0 := by push_cast at hs; omega
    have h2 : ¬ s.count - 1 = 0 := by push_cast at hs; omega
    have hstep : padStep s PadOp.powerOff = { s with count := s.count - 1 } := by
      simp [padStep, utmip_pad_power_off, h1, h2]
    rw [hstep]
    have := ih { s with count := s.count - 1 } (by simp; push_cast at hs ⊢; omega)
    simp only [padRun] at this
    rw [this]
    simp
    omega

theorem padRun_nonneg (ops : List PadOp) :
    ∀ s : PadState, 0 ≤ s.count → 0 ≤ (padRun ops s).count := by
  induction ops with
  | nil => intro s hs; simpa [padRun] using hs
  | cons op rest ih =>
    intro s hs
    simp only [padRun, List.foldl_cons]
    have hstep : 0 ≤ (padStep s op).count := by
      cases op with
      | powerOn =>
        simp [padStep, utmip_pad_power_on]
        split <;> simp <;> omega
      | powerOff =>
        simp only [padStep, utmip_pad_power_off]
        split
        · exact hs
        · split <;> simp <;> omega
    exact ih (padStep s op) hstep

theorem pollConnected_isSome_iff (conn : Nat → Bool) :
    ∀ fuel k₀, (pollConnected conn fuel k₀).isSome ↔
      ∃ k, k₀ ≤ k ∧ k < k₀ + fuel ∧ conn k = true := by
  intro fuel
  induction fuel with
  | zero =>
    intro k₀
    simp [pollConnected]
    omega
  | succ n ih =>
    intro k₀
    rw [pollConnected]
    by_cases h : conn k₀
    · simp [h]
      exact ⟨k₀, le_rfl, by omega, h⟩
    · simp only [h, if_false, Bool.false_eq_true, ih (k₀ + 1)]
      constructor
      · rintro ⟨k, hk1, hk2, hk3⟩
        exact ⟨k, by omega, by omega, hk3⟩
      · rintro ⟨k, hk1, hk2, hk3⟩
        refine ⟨k, ?_, by omega, hk3⟩
        rcases Nat.eq_or_lt_of_le hk1 with rfl | h'
        · exact absurd hk3 (by simp [h])
        · omega

theorem pollConnected_some_lt (conn : Nat → Bool) :
    ∀ fuel k₀ k, pollConnected conn fuel k₀ = some k → k < k₀ + fuel := by
  intro fuel
  induction fuel with
  | zero => intro k₀ k h; simp [pollConnected] at h
  | succ n ih =>
    intro k₀ k h
    rw [pollConnected] at h
    by_cases hc : conn k₀
    · simp [hc] at h
      omega
    · simp only [hc, if_false, Bool.false_eq_true] at h
      have := ih (k₀ + 1) k h
      omega

/-! ## Claim theorems for C1 and C8 -/

/-- Claim C1: the shared UTMI pad reference count.  For `n` powerOn calls
followed by `n` powerOff calls (`0 < n`), the analog bias block of
`UTMIP_BIAS_CFG0` receives exactly one power-up write, issued on the first
powerOn, and exactly one power-down write, issued on the last powerOff; the
count is never negative at any prefix of the sequence, and a powerOff issued
with count `0` returns `-EINVAL` (`-22`) without changing state. -/
theorem C1_utmip_pad_refcount (n : Nat) (hn : 0 < n) :
    (padRun (List.replicate 1 PadOp.powerOn) padInit).upWrites = 1 ∧
    (padRun (List.replicate n PadOp.powerOn) padInit).upWrites = 1 ∧
    (∀ k, k < n →
      (padRun (List.replicate n PadOp.powerOn ++ List.replicate k PadOp.powerOff)
        padInit).downWrites = 0) ∧
    padRun (padScenario n) padInit
      = { count := 0, bias := ⟨true, true⟩, upWrites := 1, downWrites := 1 } ∧
    (∀ k, 0 ≤ (padRun ((padScenario n).take k) padInit).count) ∧
    (∀ s : PadState, s.count = 0 → utmip_pad_power_off s = (s, -22)) := by
  obtain ⟨m, rfl⟩ : ∃ m, n = m + 1 := ⟨n - 1, by omega⟩
  refine ⟨?_, ?_, ?_, ?_, ?_, ?_⟩
  · simpa using congrArg PadState.upWrites (padRun_on_init 0)
  · rw [padRun_on_init m]
  · intro k hk
    rw [padRun_append, padRun_on_init m,
      padRun_off_chain k _ (by push_cast; omega)]
  · rw [padScenario, padRun_append, padRun_on_init m, List.replicate_succ',
      padRun_append, padRun_off_chain m _ (by push_cast; omega)]
    simp only [add_sub_cancel_left]
    decide
  · intro k
    exact padRun_nonneg _ _ (by simp [padInit])
  · intro s hs
    simp [utmip_pad_power_off, hs]

/-- Witness for C1, instantiated at `n = 2`. -/
theorem C1_utmip_pad_refcount_witness :
    padRun (padScenario 2) padInit
      = { count := 0, bias := ⟨true, true⟩, upWrites := 1, downWrites := 1 } :=
  (C1_utmip_pad_refcount 2 (by decide)).2.2.2.1

/-- Claim C8: `utmi_wait_register` terminates within its fixed iteration
budget of 50000 reads (each followed by a 1 microsecond delay in the C
code): for any sequence of register read results, at most 50000 reads are
performed; the function returns `0` after the first read whose masked value
equals the expected result, and `-1` when all 50000 reads mismatch. -/
theorem C8_utmi_wait_register_bounded (reads : Nat → Nat) (mask result : Nat) :
    (utmi_wait_register reads mask result).2 ≤ 50000 ∧
    (∀ k, k < 50000 → reads k &&& mask = result →
      (∀ j, j < k → reads j &&& mask ≠ result) →
      utmi_wait_register reads mask result = (0, k + 1)) ∧
    ((∀ k, k < 50000 → reads k &&& mask ≠ result) →
      utmi_wait_register reads mask result = (-1, 50000)) := by
  refine ⟨?_, ?_, ?_⟩
  · simpa using utmiWaitGo_snd_le reads mask result 50000 0
  · intro k hk hmatch hbefore
    exact utmiWaitGo_first_match reads mask result 50000 0 k (Nat.zero_le k)
      (by omega) hmatch (fun j _ hj => hbefore j hj)
  · intro hall
    simpa using utmiWaitGo_no_match reads mask result 50000 0
      (fun k _ hk => hall k (by omega))

/-- Witness for C8: a register that never matches makes the wait return
`-1` after exactly 50000 reads. -/
theorem C8_utmi_wait_register_witness :
    utmi_wait_register (fun _ => 0) 1 1 = (-1, 50000) :=
  (C8_utmi_wait_register_bounded (fun _ => 0) 1 1).2.2 (fun _ _ => by decide)

/-! ## Claim C2 -/

/-- Counterexample for claim C2.  The claim states that when the bounded
presence-poll budget (20 polls) is exhausted, `tegra_usb_phy_bus_reset` is
"still attempted anyway".  In the N1 build this is false: when all 20 polls
report no device, `device_ready_for_reset` stays `false` and the guarded
call `if (tegra->device_ready_for_reset) tegra_usb_phy_bus_reset(...)` is
skipped.  (The unconditional "try anyway" call only exists in the
non-`CONFIG_MACH_N1` branch, which is dead in this tree.) -/
theorem C2_counterexample :
    (hsicPortResetPath false (fun _ => false)).busResetInvoked = false := by
  decide

/-- Claim C2 as amended: in the HSIC port-reset path, `busReset` is invoked
iff device presence was already confirmed (`device_ready_for_reset` set on
entry) or one of the at most 20 presence polls returns true; when the poll
budget is exhausted without a successful poll, `busReset` is NOT attempted.
At most 20 polls are made. -/
theorem C2_hsic_reset_gated (ready : Bool) (conn : Nat → Bool) :
    ((hsicPortResetPath ready conn).busResetInvoked = true ↔
      ready = true ∨ ∃ k, k < 20 ∧ conn k = true) ∧
    (hsicPortResetPath ready conn).pollsMade ≤ 20 ∧
    (ready = false → (∀ k, k < 20 → conn k = false) →
      (hsicPortResetPath ready conn).busResetInvoked = false) := by
  refine ⟨?_, ?_, ?_⟩
  · cases ready with
    | true => simp [hsicPortResetPath]
    | false =>
      simp only [hsicPortResetPath, if_false, Bool.false_eq_true, false_or]
      rcases hp : pollConnected conn 20 0 with _ | k
      · simp only []
        constructor
        · intro h; simp at h
        · intro ⟨k, hk1, hk2⟩
          have := (pollConnected_isSome_iff conn 20 0).2 ⟨k, Nat.zero_le k, by omega, hk2⟩
          rw [hp] at this
          simp at this
      · simp only []
        constructor
        · intro _
          have hs : (pollConnected conn 20 0).isSome := by rw [hp]; rfl
          obtain ⟨j, _, hj2, hj3⟩ := (pollConnected_isSome_iff conn 20 0).1 hs
          exact ⟨j, by omega, hj3⟩
        · intro _; trivial
  · cases ready with
    | true => simp [hsicPortResetPath]
    | false =>
      simp only [hsicPortResetPath, Bool.false_eq_true, if_false]
      rcases hp : pollConnected conn 20 0 with _ | k
      · simp
      · simp only []
        have := pollConnected_some_lt conn 20 0 k hp
        omega
  · intro hr hall
    subst hr
    simp only [hsicPortResetPath, if_false]
    rcases hp : pollConnected conn 20 0 with _ | k
    · rfl
    · exfalso
      have hs : (pollConnected conn 20 0).isSome := by rw [hp]; rfl
      obtain ⟨j, _, hj2, hj3⟩ := (pollConnected_isSome_iff conn 20 0).1 hs
      exact absurd hj3 (by simp [hall j (by omega)])

/-- Witness for the amended C2: with the flag clear and a device that
answers on the third poll, `busReset` is invoked. -/
theorem C2_hsic_reset_gated_witness :
    (hsicPortResetPath false (fun k => k == 2)).busResetInvoked = true :=
  ((C2_hsic_reset_gated false (fun k => k == 2)).1).2 (Or.inr ⟨2, by decide, by decide⟩)

theorem hsicPortResetPath_readyAfter_false (ready : Bool) (conn : Nat → Bool) :
    (hsicPortResetPath ready conn).readyAfter = false := by
  cases ready with
  | true => rfl
  | false =>
    simp only [hsicPortResetPath, Bool.false_eq_true, if_false]
    rcases pollConnected conn 20 0 with _ | k <;> rfl

theorem hsicPortResetPath_busResetInvoked_eq (ready : Bool) (conn : Nat → Bool) :
    (hsicPortResetPath ready conn).busResetInvoked
      = (ready || (pollConnected conn 20 0).isSome) := by
  cases ready with
  | true => rfl
  | false =>
    simp only [hsicPortResetPath, Bool.false_eq_true, if_false, Bool.false_or]
    rcases pollConnected conn 20 0 with _ | k <;> rfl

theorem confirmCount_cons (e : HsicEvent) (es : List HsicEvent) :
    confirmCount (e :: es)
      = (if e.confirmsPresence then 1 else 0) + confirmCount es := by
  simp only [confirmCount, List.filter_cons]
  cases e.confirmsPresence <;> simp [Nat.add_comm]

theorem hsicRun_cons_fst (ready : Bool) (e : HsicEvent) (es : List HsicEvent) :
    (hsicRun ready (e :: es)).1 = (hsicRun (hsicStep ready e).1 es).1 := rfl

theorem hsicRun_cons_snd (ready : Bool) (e : HsicEvent) (es : List HsicEvent) :
    (hsicRun ready (e :: es)).2
      = (if (hsicStep ready e).2 then 1 else 0)
        + (hsicRun (hsicStep ready e).1 es).2 := rfl

theorem hsicRun_counting (es : List HsicEvent) :
    ∀ ready : Bool,
      (hsicRun ready es).2 + (if (hsicRun ready es).1 then 1 else 0)
        ≤ confirmCount es + (if ready then 1 else 0) := by
  induction es with
  | nil => intro ready; simp [hsicRun, confirmCount]
  | cons e rest ih =>
    intro ready
    have hstep : (if (hsicStep ready e).2 then 1 else 0)
        + (if (hsicStep ready e).1 then 1 else 0)
        ≤ (if e.confirmsPresence then 1 else 0) + (if ready then 1 else 0) := by
      cases e with
      | portPowerConnect sd =>
        cases sd <;> cases ready <;> simp [hsicStep, HsicEvent.confirmsPresence]
      | portReset conn =>
        simp only [hsicStep, HsicEvent.confirmsPresence,
          hsicPortResetPath_busResetInvoked_eq, hsicPortResetPath_readyAfter_false]
        cases ready <;> simp
      | resumeCheck c =>
        cases c <;> cases ready <;> simp [hsicStep, HsicEvent.confirmsPresence]
      | workerPoll c =>
        cases c <;> cases ready <;> simp [hsicStep, HsicEvent.confirmsPresence]
      | busSuspend =>
        cases ready <;> simp [hsicStep, HsicEvent.confirmsPresence]
    have hrest := ih (hsicStep ready e).1
    rw [hsicRun_cons_fst, hsicRun_cons_snd, confirmCount_cons]
    omega

/-- Claim C10: `device_ready_for_reset` is consumed by each HSIC bus reset.
Part (a): whenever the port-reset path invokes `tegra_usb_phy_bus_reset`,
the flag is true at the moment of the call (it was set on entry or by a
successful presence poll of this very call) and is reset to false
immediately afterwards.  Part (b): along any event trace, the number of
bus-reset invocations never exceeds the number of presence-confirming
events (plus one for an initially-set flag) — so two consecutive bus resets
always have an intervening presence-confirming event, counting a successful
poll inside the second reset itself. -/
theorem C10_ready_for_reset_consumed (es : List HsicEvent) (ready : Bool) :
    (∀ (r : Bool) (conn : Nat → Bool),
      (hsicPortResetPath r conn).busResetInvoked = true →
        (r = true ∨ (pollConnected conn 20 0).isSome = true) ∧
        (hsicPortResetPath r conn).readyAfter = false) ∧
    (hsicRun ready es).2 + (if (hsicRun ready es).1 then 1 else 0)
      ≤ confirmCount es + (if ready then 1 else 0) := by
  constructor
  · intro r conn hinv
    constructor
    · cases r with
      | true => exact Or.inl rfl
      | false =>
        refine Or.inr ?_
        rw [hsicPortResetPath_busResetInvoked_eq] at hinv
        simpa using hinv
    · exact hsicPortResetPath_readyAfter_false r conn
  · exact hsicRun_counting es ready

/-- Witness for C10: a bus reset invoked with the flag set on entry leaves
the flag consumed (false). -/
theorem C10_ready_for_reset_consumed_witness :
    (hsicPortResetPath true (fun _ => false)).readyAfter = false :=
  ((C10_ready_for_reset_consumed [] false).1 true (fun _ => false) (by decide)).2

/-- Claim C3: for every parent-clock rate present in the calibration table
of the handle's transceiver family (the four rates 12, 13, 19.2 and 26 MHz),
`tegra_usb_phy_open` succeeds and selects exactly the table row whose `freq`
field equals the rate (the four frequencies are pairwise distinct, so that
row is unique); for every other rate it fails with `-EINVAL` and returns no
handle. -/
theorem C3_freq_table_lookup (inst : Nat) (cfg : UsbPhyConfig)
    (m : TegraUsbPhyMode) (rate : Nat) :
    (freqTableFor (phyConfigIsHsic inst cfg)).map TegraXtalFreq.freq
        = [12000000, 13000000, 19200000, 26000000] ∧
    (∀ row ∈ freqTableFor (phyConfigIsHsic inst cfg), row.freq = rate →
      tegra_usb_phy_open inst (some cfg) m rate
        = .ok { inst := inst, config := cfg, mode := m, freq := row }) ∧
    ((∀ row ∈ freqTableFor (phyConfigIsHsic inst cfg), row.freq ≠ rate) →
      tegra_usb_phy_open inst (some cfg) m rate = .error (-22)) := by
  refine ⟨?_, ?_, ?_⟩
  · cases hB : phyConfigIsHsic inst cfg <;> decide
  · intro row hrow hfreq
    subst hfreq
    simp only [tegra_usb_phy_open, openWithConfig]
    cases hB : phyConfigIsHsic inst cfg with
    | false =>
      rw [hB] at hrow
      have hrow' : row ∈ tegra_freq_table := hrow
      fin_cases hrow' <;> rfl
    | true =>
      rw [hB] at hrow
      have hrow' : row ∈ tegra_uhsic_freq_table := hrow
      fin_cases hrow' <;> rfl
  · intro hall
    have hfind : (freqTableFor (phyConfigIsHsic inst cfg)).find?
        (fun r => r.freq == rate) = none :=
      List.find?_eq_none.2 (fun x hx => by simpa using hall x hx)
    simp [tegra_usb_phy_open, openWithConfig, hfind]

/-- Witness for C3: opening a UTMI instance at 12 MHz selects the 12 MHz
row; at 14 MHz the open fails with `-EINVAL`. -/
theorem C3_freq_table_lookup_witness :
    tegra_usb_phy_open 0 (some (.utmip (utmip_default 0))) .host 12000000
      = .ok { inst := 0, config := .utmip (utmip_default 0), mode := .host,
              freq := ⟨12000000, 0x02, 0x2F, 0x04, 0x76, 0x7530⟩ } ∧
    tegra_usb_phy_open 0 (some (.utmip (utmip_default 0))) .host 14000000
      = .error (-22) :=
  ⟨(C3_freq_table_lookup 0 (.utmip (utmip_default 0)) .host 12000000).2.1
      ⟨12000000, 0x02, 0x2F, 0x04, 0x76, 0x7530⟩ (by decide) rfl,
   (C3_freq_table_lookup 0 (.utmip (utmip_default 0)) .host 14000000).2.2
      (by decide)⟩

/-- Claim C6: `tegra_usb_phy_open` with no configuration record fails with
`-EINVAL` for the discrete-ULPI/HSIC instance 1 (returning no handle, since
the `.error` branch carries none), and for UTMI instances behaves exactly
as if the compiled-in `utmip_default[instance]` had been supplied. -/
theorem C6_config_missing (phy_mode : TegraUsbPhyMode) (parent_rate : Nat) :
    tegra_usb_phy_open 1 none phy_mode parent_rate = .error (-22) ∧
    (∀ inst, inst ≠ 1 →
      tegra_usb_phy_open inst none phy_mode parent_rate
        = tegra_usb_phy_open inst (some (.utmip (utmip_default inst)))
            phy_mode parent_rate) ∧
    (∀ inst, inst ≠ 1 → ∀ p, tegra_usb_phy_open inst none phy_mode parent_rate = .ok p →
      p.config = .utmip (utmip_default inst)) := by
  refine ⟨rfl, ?_, ?_⟩
  · intro inst hinst
    simp [tegra_usb_phy_open, hinst]
  · intro inst hinst p hp
    simp only [tegra_usb_phy_open, beq_iff_eq, hinst, if_false] at hp
    simp only [openWithConfig] at hp
    rcases hfind : (freqTableFor (phyConfigIsHsic inst
        (.utmip (utmip_default inst)))).find? (fun r => r.freq == parent_rate)
      with _ | row
    · rw [hfind] at hp; cases hp
    · rw [hfind] at hp
      cases hp
      rfl

/-- Witness for C6: instance 0 with no configuration behaves like instance 0
opened with `utmip_default[0]`. -/
theorem C6_config_missing_witness :
    tegra_usb_phy_open 0 none .host 12000000
      = tegra_usb_phy_open 0 (some (.utmip (utmip_default 0))) .host 12000000 :=
  (C6_config_missing .host 12000000).2.1 0 (by decide)

theorem uhsicPowerOnGo_ret (phoneActive : Bool) (speedOk : Nat → Bool) :
    ∀ spin k, (uhsicPowerOnGo phoneActive speedOk spin k).ret = 0 := by
  intro spin
  induction spin with
  | zero => intro k; rfl
  | succ n ih =>
    intro k
    rw [uhsicPowerOnGo]
    split
    · exact ih (k + 1)
    · rfl

theorem uhsicPowerOnGo_attempts (phoneActive : Bool) (speedOk : Nat → Bool) :
    ∀ spin k, (uhsicPowerOnGo phoneActive speedOk spin k).attempts ≤ k + spin + 1 := by
  intro spin
  induction spin with
  | zero => intro k; simp [uhsicPowerOnGo]
  | succ n ih =>
    intro k
    rw [uhsicPowerOnGo]
    split
    · exact le_trans (ih (k + 1)) (by omega)
    · simp

theorem uhsicPowerOnGo_powerOffs (phoneActive : Bool) (speedOk : Nat → Bool) :
    ∀ spin k, (uhsicPowerOnGo phoneActive speedOk spin k).powerOffs
      = (uhsicPowerOnGo phoneActive speedOk spin k).attempts - 1 := by
  intro spin
  induction spin with
  | zero => intro k; simp [uhsicPowerOnGo]
  | succ n ih =>
    intro k
    rw [uhsicPowerOnGo]
    split
    · exact ih (k + 1)
    · simp

theorem uhsicPowerOnGo_all_fail (speedOk : Nat → Bool)
    (hfail : ∀ k, speedOk k = false) :
    ∀ spin k, uhsicPowerOnGo true speedOk spin k = ⟨0, k + spin + 1, k + spin⟩ := by
  intro spin
  induction spin with
  | zero => intro k; rfl
  | succ n ih =>
    intro k
    rw [uhsicPowerOnGo, if_pos (by simp [hfail k])]
    rw [ih (k + 1)]
    congr 1 <;> omega

/-- Claim C5: `uhsic_phy_power_on` retries the entire power-on register
sequence up to 5 times (at most 6 executions) when the expected port-speed
status is not observed, powering off (and pulsing the modem wake GPIO)
between attempts, and returns `0` in every case — including when the retry
budget is exhausted without ever observing the expected port speed (6
attempts, 5 intervening power-offs, result still `0`). -/
theorem C5_hsic_power_on_retries (phoneActive : Bool) (speedOk : Nat → Bool) :
    (uhsic_phy_power_on phoneActive speedOk).ret = 0 ∧
    (uhsic_phy_power_on phoneActive speedOk).attempts ≤ 6 ∧
    (uhsic_phy_power_on phoneActive speedOk).powerOffs
      = (uhsic_phy_power_on phoneActive speedOk).attempts - 1 ∧
    (phoneActive = true → (∀ k, speedOk k = false) →
      uhsic_phy_power_on phoneActive speedOk = ⟨0, 6, 5⟩) ∧
    (phoneActive = false → uhsic_phy_power_on phoneActive speedOk = ⟨0, 1, 0⟩) := by
  refine ⟨uhsicPowerOnGo_ret phoneActive speedOk 5 0,
    by simpa using uhsicPowerOnGo_attempts phoneActive speedOk 5 0,
    uhsicPowerOnGo_powerOffs phoneActive speedOk 5 0, ?_, ?_⟩
  · intro hp hfail
    subst hp
    simpa using uhsicPowerOnGo_all_fail speedOk hfail 5 0
  · intro hp
    subst hp
    rfl

/-- Witness for C5: with the modem GPIO active and the expected port speed
never observed, the call still returns `0` after 6 attempts and 5
power-offs. -/
theorem C5_hsic_power_on_retries_witness :
    uhsic_phy_power_on true (fun _ => false) = ⟨0, 6, 5⟩ :=
  (C5_hsic_power_on_retries true (fun _ => false)).2.2.2.1 rfl (fun _ => rfl)

/-- Claim C9: for every handle that is not an HSIC handle (instance not 1,
or a ULPI interface type other than UHSIC), `tegra_usb_phy_is_device_connected`
returns true unconditionally, without consulting any connect-detect or
line-state register (the result does not depend on the read sequences). -/
theorem C9_non_hsic_always_connected (p : UsbPhy)
    (statReads portscReads : Nat → Nat)
    (h : p.inst ≠ 1 ∨ ∀ u : TegraUlpiConfig, p.config = .ulpi u → u.inf_type ≠ .uhsic) :
    tegra_usb_phy_is_device_connected p statReads portscReads = true ∧
    tegra_usb_phy_is_device_connected p statReads portscReads
      = tegra_usb_phy_is_device_connected p (fun _ => 0) (fun _ => 0) := by
  have hh : phyIsHsicHandle p = false := by
    rcases h with h | h
    · simp [phyIsHsicHandle, phyConfigIsHsic, h]
    · rcases hc : p.config with c | u
      · simp [phyIsHsicHandle, phyConfigIsHsic, hc]
      · have hu := h u hc
        simp [phyIsHsicHandle, phyConfigIsHsic, hc, hu]
  constructor
  · simp [tegra_usb_phy_is_device_connected, hh]
  · simp [tegra_usb_phy_is_device_connected, hh]

/-- Witness for C9: a UTMI instance-0 handle reports a connected device no
matter what the registers read. -/
theorem C9_non_hsic_always_connected_witness :
    tegra_usb_phy_is_device_connected
      { inst := 0, config := .utmip (utmip_default 0), mode := .host,
        freq := ⟨12000000, 0x02, 0x2F, 0x04, 0x76, 0x7530⟩ }
      (fun _ => 0) (fun _ => 0) = true :=
  (C9_non_hsic_always_connected _ (fun _ => 0) (fun _ => 0)
    (Or.inl (by decide))).1

theorem phyRestoreStart_not_in_tail (hsic : Bool) (port_speed : Nat)
    (env : ResumeEnv) :
    ResumeCall.phyRestoreStart ∉ resumeRestartTail hsic port_speed env := by
  simp only [resumeRestartTail]
  split_ifs <;> simp

/-- Counterexample for claim C4.  The claim states that after a suspend that
recorded port speed = High, `tegra_usb_resume` takes the wait-and-restart
path and does NOT invoke `tegra_ehci_phy_restore_start` /
`tegra_ehci_phy_restore_end`.  In the code the wait-and-restart branch is
guarded by `port_speed > TEGRA_USB_PHY_PORT_SPEED_HIGH` (or by `hsic` in the
N1 build), so at recorded speed High (= 2) a non-HSIC resume takes the
forced data-line-suspend branch and invokes both restore calls. -/
theorem C4_counterexample :
    ResumeCall.phyRestoreStart
        ∈ tegra_usb_resume false TEGRA_USB_PHY_PORT_SPEED_HIGH resumeEnvAllOk ∧
    ResumeCall.phyRestoreEnd
        ∈ tegra_usb_resume false TEGRA_USB_PHY_PORT_SPEED_HIGH resumeEnvAllOk := by
  decide

/-- Claim C4 as amended: in `tegra_usb_resume`, the forced data-line-suspend
branch (`tegra_ehci_phy_restore_start`) is taken exactly when the port is
not HSIC and the recorded speed is at most High; the wait-and-restart path
(no `phy_restore_start`) is taken only for HSIC or for recorded speed
strictly above High. -/
theorem C4_resume_branch (hsic : Bool) (port_speed : Nat) (env : ResumeEnv) :
    ResumeCall.phyRestoreStart ∈ tegra_usb_resume hsic port_speed env ↔
      hsic = false ∧ port_speed ≤ TEGRA_USB_PHY_PORT_SPEED_HIGH := by
  cases hsic with
  | true =>
    have htail := phyRestoreStart_not_in_tail true port_speed env
    simp [tegra_usb_resume, htail]
  | false =>
    by_cases hs : port_speed ≤ TEGRA_USB_PHY_PORT_SPEED_HIGH
    · simp [tegra_usb_resume, hs, not_lt.2 hs]
    · have htail := phyRestoreStart_not_in_tail false port_speed env
      simp [tegra_usb_resume, hs, not_le.1 hs, htail]

theorem port_resume_no_start (hw : ResumeHw) (s : PortStatus) (resuming : Bool)
    (h : s.suspended = false ∨ (s.reset || !s.pe) = true) :
    (tegra_ehci_port_resume hw s resuming).startedSignal = false := by
  unfold tegra_ehci_port_resume
  by_cases h1 : (s.reset || !s.pe) = true
  · rw [if_pos h1]
  · rw [if_neg h1]
    rcases h with h | h
    · rw [if_pos (show (!s.suspended) = true by simp [h])]
    · exact absurd h h1

theorem port_resume_second_blocked (hw : ResumeHw) (s : PortStatus)
    (resuming : Bool) (h : hw.clearsSuspend = true) :
    (tegra_ehci_port_resume hw s resuming).portsc.suspended = false ∨
    ((tegra_ehci_port_resume hw s resuming).portsc.reset
        || !(tegra_ehci_port_resume hw s resuming).portsc.pe) = true := by
  unfold tegra_ehci_port_resume
  by_cases h1 : (s.reset || !s.pe) = true
  · rw [if_pos h1]; right; exact h1
  · rw [if_neg h1]
    by_cases h2 : (!s.suspended) = true
    · rw [if_pos h2]; left; simpa using h2
    · rw [if_neg h2]; left; simp [h]

/-- Counterexample for claim C7.  The claim states that for every reachable
state with `port_resuming = true`, a second `portResume` request leaves the
resume-signalling sequence un-restarted.  The path is guarded only by the
`PORT_SUSPEND` register bit, not by the flag: running the path once from a
suspended port with a controller that never clears the bits (a timeout the
code tolerates with a log message) reaches a state with
`port_resuming = true` and `PORT_SUSPEND` still set, and a second request
from that state starts resume signalling again. -/
theorem C7_counterexample :
    (tegra_ehci_port_resume unresponsiveHw suspendedPort false).port_resuming
        = true ∧
    (tegra_ehci_port_resume unresponsiveHw suspendedPort false).portsc.suspended
        = true ∧
    (tegra_ehci_port_resume unresponsiveHw
      (tegra_ehci_port_resume unresponsiveHw suspendedPort false).portsc
      (tegra_ehci_port_resume unresponsiveHw suspendedPort false).port_resuming
      ).startedSignal = true := by
  decide

/-- Claim C7 as amended: the guard against a second in-flight resume is the
`PORT_SUSPEND` register bit, not the `port_resuming` flag.  A `portResume`
request on a port whose `PORT_SUSPEND` bit is clear starts no resume
signalling and leaves the port state unchanged; consequently, when the
controller completes the handshake (clearing `PORT_SUSPEND` before the poll
budget expires), a second request immediately after the first starts no
second resume signalling.  After a timed-out handshake the bit may still be
set and the guard does not hold (see the counterexample). -/
theorem C7_single_resume_guard (hw : ResumeHw) (s : PortStatus)
    (resuming : Bool) :
    (s.suspended = false →
      (tegra_ehci_port_resume hw s resuming).startedSignal = false ∧
      (tegra_ehci_port_resume hw s resuming).portsc = s ∧
      (tegra_ehci_port_resume hw s resuming).port_resuming = resuming) ∧
    (hw.clearsSuspend = true →
      (tegra_ehci_port_resume hw
        (tegra_ehci_port_resume hw s resuming).portsc
        (tegra_ehci_port_resume hw s resuming).port_resuming).startedSignal
          = false) := by
  constructor
  · intro h
    unfold tegra_ehci_port_resume
    by_cases h1 : (s.reset || !s.pe) = true
    · rw [if_pos h1]; exact ⟨rfl, rfl, rfl⟩
    · rw [if_neg h1, if_pos (show (!s.suspended) = true by simp [h])]
      exact ⟨rfl, rfl, rfl⟩
  · intro h
    exact port_resume_no_start hw _ _ (port_resume_second_blocked hw s resuming h)

/-- Witness for the amended C7: with a responsive controller, a second
`portResume` right after a completed one starts no signalling. -/
theorem C7_single_resume_guard_witness :
    (tegra_ehci_port_resume responsiveHw
      (tegra_ehci_port_resume responsiveHw suspendedPort false).portsc
      (tegra_ehci_port_resume responsiveHw suspendedPort false).port_resuming
      ).startedSignal = false :=
  (C7_single_resume_guard responsiveHw suspendedPort false).2 rfl

end TegraUsb
